import Mathlib

/-!
Verification of the AMR_TOOLKIT map editor core (`main_all.py`) against its
natural-language specification.

The embedding models the program's arithmetic exactly: Python integers are
`Int`/`Nat`, Python floats on the coordinate paths are embedded as `Rat`
(the source only adds, subtracts, multiplies and divides them), and the
angle-display path, which multiplies by `180 / pi`, is embedded over `Real`.
Python's `int(...)` cast truncates toward zero, embedded as `truncQ` /
`truncR`.
-/

/-- Truncation toward zero of a rational, the behaviour of Python's
`int(float)` cast used throughout `main_all.py`. -/
def truncQ (q : ℚ) : ℤ := if 0 ≤ q then ⌊q⌋ else ⌈q⌉

/-- Truncation toward zero of a real number (used only for the
angle-to-degrees display conversion, which involves `pi`). -/
noncomputable def truncR (x : ℝ) : ℤ := if 0 ≤ x then ⌊x⌋ else ⌈x⌉

/-- Drawing-mode constants, `main_all.py` lines 47-51. -/
inductive DrawingMode where
  | NONE
  | PEN
  | ERASER
  | WAYPOINT
deriving DecidableEq, Repr

/-- Abstraction of the Qt cursor shown over the drawable label: the arrow
cursor, the cross cursor used by the waypoint tool, and the circular
pen/eraser cursor built by `DrawableLabel.updateCursor` (its pixmap size
bookkeeping is GUI detail and is collapsed into one constructor). -/
inductive CursorModel where
  | arrow
  | cross
  | toolCircle
deriving DecidableEq, Repr

/-- A waypoint, `main_all.py` lines 53-112 (`Waypoint`). The derived
strings `name` and `display_name` are not carried (their degree component
is modelled separately by `displayDegrees`); the fields `_origin_x`,
`_origin_y` set by `update_metric_coordinates` are carried as
`origin_memo`. The `angle` field holds radians. -/
structure Waypoint where
  number : ℕ
  pixel_x : ℤ
  pixel_y : ℤ
  x : ℚ
  y : ℚ
  angle : ℚ
  resolution : ℚ
  origin_memo : Option (ℤ × ℤ)
deriving DecidableEq, Repr

/-- `Waypoint.__init__` (lines 62-72): the class counter has already been
incremented to `newNumber`; metric coordinates start at `(0, 0)` and the
remembered resolution defaults to `0.05`. -/
def mkWaypoint (newNumber : ℕ) (px py : ℤ) (angle : ℚ) : Waypoint :=
  { number := newNumber, pixel_x := px, pixel_y := py,
    x := 0, y := 0, angle := angle, resolution := 1/20, origin_memo := none }

/-- `Waypoint.update_metric_coordinates` (lines 84-98): store the origin
and resolution, then set `x = (pixel_x - origin_x) * resolution` and
`y = (origin_y - pixel_y) * resolution` (pixel rows grow downward, so the
y axis is inverted). -/
def update_metric_coordinates (w : Waypoint) (ox oy : ℤ) (r : ℚ) : Waypoint :=
  { w with
    origin_memo := some (ox, oy),
    resolution := r,
    x := ((w.pixel_x : ℚ) - (ox : ℚ)) * r,
    y := ((oy : ℚ) - (w.pixel_y : ℚ)) * r }

/-- Metric-to-pixel x conversion used by waypoint import, line 1214:
`pixel_x = int(origin_x + (x_meters / self.resolution))`. -/
def metric_to_pixel_x (ox : ℤ) (xm r : ℚ) : ℤ := truncQ ((ox : ℚ) + xm / r)

/-- Metric-to-pixel y conversion used by waypoint import, line 1215:
`pixel_y = int(origin_y - (y_meters / self.resolution))`. -/
def metric_to_pixel_y (oy : ℤ) (ym r : ℚ) : ℤ := truncQ ((oy : ℚ) - ym / r)

/-- Raster abstraction: a pixmap assigns to some coordinates a painted
color (an abstract color code); coordinates it does not paint are
transparent. -/
def Image : Type := ℤ × ℤ → Option ℕ

/-- A fully-painted canvas, the compositing target of `update_display`. -/
def Canvas : Type := ℤ × ℤ → ℕ

/-- A freshly allocated pixmap filled with `Qt.GlobalColor.transparent`. -/
def transparentImage : Image := fun _ => none

/-- A layer, `main_all.py` lines 405-425 (`Layer`): a visibility flag, an
opacity and a nullable pixmap. -/
structure LayerModel where
  visible : Bool
  opacity : ℚ
  pixmap : Option Image

/-- The document state held by `ImageViewer` (lines 437-496), together
with the drawing-enabled flags and cursor of its `DrawableLabel`
(`pgm_display`) and `CustomScrollArea` (`scroll_area`) collaborators and
the `Waypoint.counter` class variable. -/
structure ViewerState where
  scale_factor : ℚ
  drawing_mode : DrawingMode
  pen_size : ℕ
  eraser_size : ℕ
  pgm_layer : LayerModel
  drawing_layer : LayerModel
  path_layer : LayerModel
  waypoint_layer : LayerModel
  origin_layer : LayerModel
  waypoints : List Waypoint
  counter : ℕ
  show_grid : Bool
  origin_point : Option (ℤ × ℤ)
  resolution : ℚ
  pen_checked : Bool
  eraser_checked : Bool
  waypoint_checked : Bool
  display_drawing_enabled : Bool
  display_cursor : CursorModel
  scroll_drawing_enabled : Bool

/-- A layer as constructed by `Layer.__init__`: visible, opacity 1, no
pixmap yet. -/
def initialLayer : LayerModel := { visible := true, opacity := 1, pixmap := none }

/-- The state set up by `ImageViewer.__init__` (plus the collaborators'
initial flags). -/
def initialState : ViewerState :=
  { scale_factor := 1, drawing_mode := .NONE, pen_size := 2, eraser_size := 10,
    pgm_layer := initialLayer, drawing_layer := initialLayer,
    path_layer := initialLayer, waypoint_layer := initialLayer,
    origin_layer := initialLayer,
    waypoints := [], counter := 0, show_grid := false,
    origin_point := none, resolution := 1/20,
    pen_checked := false, eraser_checked := false, waypoint_checked := false,
    display_drawing_enabled := false, display_cursor := .arrow,
    scroll_drawing_enabled := false }

/-- The renumbering loop shared by `remove_waypoint` (lines 962-964) and
`reorder_waypoints` (lines 1012-1014): walk the list, incrementing the
counter (here the accumulator `k`) and assigning it as each waypoint's new
number. The derived `name` string is not modelled. -/
def renumberFrom : ℕ → List Waypoint → List Waypoint
  | _, [] => []
  | k, w :: ws => { w with number := k + 1 } :: renumberFrom (k + 1) ws

/-- The waypoint built by `ImageViewer.add_waypoint` (lines 799-804):
`Waypoint(x, y)` — the class counter has been incremented to
`s.counter + 1` — whose metric coordinates are computed immediately when
an origin point is set. -/
def placedWaypoint (s : ViewerState) (x y : ℤ) : Waypoint :=
  match s.origin_point with
  | some (ox, oy) => update_metric_coordinates (mkWaypoint (s.counter + 1) x y 0) ox oy s.resolution
  | none => mkWaypoint (s.counter + 1) x y 0

/-- Lines 809-812 of `add_waypoint`: allocate the waypoint layer's pixmap
(transparent) if it is still null. -/
def ensureWaypointLayer (s : ViewerState) : ViewerState :=
  match s.waypoint_layer.pixmap with
  | none => { s with waypoint_layer := { s.waypoint_layer with pixmap := some transparentImage } }
  | some _ => s

/-- `ImageViewer.add_waypoint` (lines 783-815), taking the already
converted map-pixel coordinates (the display-to-pixel scaling at lines
788-797 depends on widget geometry, outside the document model): no-op
without a base pixmap; create `Waypoint(x, y)` (incrementing the class
counter), compute metric coordinates when an origin is set, append, and
allocate the waypoint layer's pixmap if it is still null. -/
def add_waypoint (s : ViewerState) (x y : ℤ) : ViewerState :=
  match s.pgm_layer.pixmap with
  | none => s
  | some _ =>
    ensureWaypointLayer
      { s with counter := s.counter + 1, waypoints := s.waypoints ++ [placedWaypoint s x y] }

/-- `ImageViewer.remove_waypoint` (lines 950-967): drop every waypoint
carrying the given number, reset the class counter, then renumber the
remaining waypoints 1..N in order (leaving the counter at N). -/
def remove_waypoint (s : ViewerState) (n : ℕ) : ViewerState :=
  let l := s.waypoints.filter (fun wp => wp.number != n)
  { s with waypoints := renumberFrom 0 l, counter := l.length }

/-- `ImageViewer.reorder_waypoints` (lines 976-1017): no-op on an empty
list or when source/target numbers are absent; otherwise remove the source
waypoint from its index and insert it at the target's pre-removal index
(the source performs the same insertion in both drag directions), then
renumber 1..N. -/
def reorder_waypoints (s : ViewerState) (src tgt : ℕ) : ViewerState :=
  if s.waypoints.isEmpty then s
  else
    match s.waypoints.find? (fun wp => wp.number == src) with
    | none => s
    | some source_wp =>
      let source_index := s.waypoints.findIdx (fun wp => wp.number == src)
      match s.waypoints.findIdx? (fun wp => wp.number == tgt) with
      | none => s
      | some target_index =>
        let l := (s.waypoints.eraseIdx source_index).insertIdx target_index source_wp
        { s with waypoints := renumberFrom 0 l, counter := l.length }

/-- Structural operations on the waypoint collection named by the
renumbering-density claim. -/
inductive WpOp where
  | add (x y : ℤ)
  | remove (n : ℕ)
  | reorder (src tgt : ℕ)

/-- Dispatch one collection operation. -/
def applyWpOp (s : ViewerState) : WpOp → ViewerState
  | .add x y => add_waypoint s x y
  | .remove n => remove_waypoint s n
  | .reorder src tgt => reorder_waypoints s src tgt

/-- Invariant tying the waypoint numbers to the class counter: the numbers
read in list order are exactly 1..N and the counter equals N. -/
def WpInv (s : ViewerState) : Prop :=
  s.waypoints.map Waypoint.number = List.range' 1 s.waypoints.length ∧
  s.counter = s.waypoints.length

/-- A document state with a loaded base map (so `add_waypoint` is not a
no-op) and an otherwise pristine collection, used to exercise the
collection operations on concrete inputs. -/
def sampleLoadedState : ViewerState :=
  { initialState with pgm_layer := { initialLayer with pixmap := some (fun _ => some 205) } }

/-- A concrete operation sequence exercising all three structural
operations. -/
def sampleOps : List WpOp :=
  [.add 10 11, .add 20 21, .add 30 31, .remove 2, .reorder 2 1, .add 40 41]

/-- The white background `update_display` starts from (line 830),
`Qt.GlobalColor.white` as an abstract color code. -/
def whiteColor : ℕ := 16777215

/-- Painting a pixmap over the canvas at a given opacity
(`painter.setOpacity(...)` followed by `painter.drawPixmap(0, 0, ...)`):
wherever the pixmap has a painted pixel, the result is the blend of that
pixel with the canvas pixel, `blend` being the toolkit's source-over
composition (at opacity 1 it returns the source pixel, the regime the
compositing claims address). -/
def paintWith (blend : ℚ → ℕ → ℕ → ℕ) (opacity : ℚ) (img : Image) (dst : Canvas) : Canvas :=
  fun c =>
    match img c with
    | some v => blend opacity v (dst c)
    | none => dst c

/-- The paint passes of `ImageViewer.update_display` (lines 823-928), in
their fixed source order: base map, grid overlay, drawing, path,
procedurally drawn waypoint markers, origin marker. -/
inductive PassId where
  | base
  | grid
  | drawing
  | path
  | waypoints
  | origin
deriving DecidableEq, Repr

/-- One raster-layer pass: `if layer.visible and layer.pixmap:` paint it,
else leave the canvas alone. -/
def layerPass (blend : ℚ → ℕ → ℕ → ℕ) (l : LayerModel) (dst : Canvas) : Canvas :=
  if l.visible then
    match l.pixmap with
    | some img => paintWith blend l.opacity img dst
    | none => dst
  else dst

/-- One pass of `update_display`. The procedural waypoint-marker drawing
(lines 861-921, guarded by `if self.waypoints and
self.waypoint_layer.visible:`) and the grid drawing (lines 839-849, at
opacity 0.3) are parametrised by the images they paint, `wpImg` and
`gridImg`, since their pixel sets are Qt geometry; every claim below holds
for all values of these parameters. -/
def applyPass (blend : ℚ → ℕ → ℕ → ℕ) (wpImg : List Waypoint → Image) (gridImg : Image)
    (s : ViewerState) (p : PassId) (dst : Canvas) : Canvas :=
  match p with
  | .base => layerPass blend s.pgm_layer dst
  | .grid => if s.show_grid then paintWith blend (3/10) gridImg dst else dst
  | .drawing => layerPass blend s.drawing_layer dst
  | .path => layerPass blend s.path_layer dst
  | .waypoints =>
    if !s.waypoints.isEmpty && s.waypoint_layer.visible then
      paintWith blend s.waypoint_layer.opacity (wpImg s.waypoints) dst
    else dst
  | .origin => layerPass blend s.origin_layer dst

/-- The fixed compositing order of `update_display`. -/
def passOrder : List PassId := [.base, .grid, .drawing, .path, .waypoints, .origin]

/-- `ImageViewer.update_display`: nothing is rendered without a base
pixmap (line 825); otherwise a white canvas receives the passes in their
fixed order. -/
def update_display (blend : ℚ → ℕ → ℕ → ℕ) (wpImg : List Waypoint → Image) (gridImg : Image)
    (s : ViewerState) : Option Canvas :=
  match s.pgm_layer.pixmap with
  | none => none
  | some _ =>
    some (passOrder.foldl (fun cv p => applyPass blend wpImg gridImg s p cv) (fun _ => whiteColor))

/-- Rendering as if one pass did not exist: the same pipeline with that
pass removed from the order. -/
def update_display_without (skip : PassId) (blend : ℚ → ℕ → ℕ → ℕ)
    (wpImg : List Waypoint → Image) (gridImg : Image) (s : ViewerState) : Option Canvas :=
  match s.pgm_layer.pixmap with
  | none => none
  | some _ =>
    some ((passOrder.filter (fun p => p ≠ skip)).foldl
      (fun cv p => applyPass blend wpImg gridImg s p cv) (fun _ => whiteColor))

/-- A source-over blend model used for concrete renders: at opacity 1 it
returns the source pixel. -/
def sampleBlend : ℚ → ℕ → ℕ → ℕ := fun op v d => if op = 1 then v else d

/-- Concrete rasters and marker/grid renderers for concrete renders. -/
def sampleBaseImg : Image := fun _ => some 205

/-- A drawing raster painting the column x = 0. -/
def sampleDrawImg : Image := fun c => if c.1 = 0 then some 1 else none

/-- An empty path raster. -/
def samplePathImg : Image := fun _ => none

/-- An origin raster painting only the coordinate (0, 0). -/
def sampleOriginImg : Image := fun c => if c = (0, 0) then some 9 else none

/-- A marker renderer painting the diagonal x + y = 0. -/
def sampleWpImg : List Waypoint → Image := fun _ c => if c.1 + c.2 = 0 then some 7 else none

/-- An empty grid image. -/
def sampleGridImg : Image := fun _ => none

/-- A fully loaded document: every layer has a raster, one waypoint
exists. -/
def sampleFullState : ViewerState :=
  { initialState with
      pgm_layer := { initialLayer with pixmap := some sampleBaseImg },
      drawing_layer := { initialLayer with pixmap := some sampleDrawImg },
      path_layer := { initialLayer with pixmap := some samplePathImg },
      origin_layer := { initialLayer with pixmap := some sampleOriginImg },
      waypoints := [mkWaypoint 1 5 5 0], counter := 1 }

/-- A loaded document whose waypoint layer has a null raster while a
waypoint exists and the layer is visible. -/
def nullRasterWpState : ViewerState :=
  { sampleLoadedState with waypoints := [mkWaypoint 1 5 5 0], counter := 1 }

/-- A PGM file as consumed by `MainWindow.load_pgm_file` (lines
2182-2210): the byte stream is modelled as the decoded text lines that
successive `readline()` calls return, followed by the raw pixel bytes. -/
structure PGMFile where
  lines : List String
  data : List ℕ

/-- Python's `str.strip()`: drop leading and trailing whitespace
(implemented structurally over the character list so that concrete
evaluation reduces). -/
def pyStrip (s : String) : String :=
  ⟨((s.data.dropWhile Char.isWhitespace).reverse.dropWhile Char.isWhitespace).reverse⟩

/-- Python's `line.startswith('#')`. -/
def startsWithHash (s : String) : Bool :=
  match s.data.head? with
  | some c => c == '#'
  | none => false

/-- The comment-skipping loop (lines 2193-2196): read and strip lines
while they start with `#`; at end of file `readline()` returns the empty
string, which breaks the loop. Returns the first non-comment line
(stripped) and the remaining lines. -/
def dropComments : List String → String × List String
  | [] => ("", [])
  | l :: ls => if startsWithHash (pyStrip l) then dropComments ls else (pyStrip l, ls)

/-- Parsing `"<width> <height>"` (line 2197): split on whitespace and
require exactly two integer tokens, as `width, height = map(int,
line.split())` does. -/
def parseDims (line : String) : Option (ℕ × ℕ) :=
  match (line.split (fun c => c.isWhitespace)).filter (fun t => t ≠ "") with
  | [a, b] =>
    match a.toNat?, b.toNat? with
    | some w, some h => some (w, h)
    | _, _ => none
  | _ => none

/-- The parse performed inside the `try:` of `MainWindow.load_pgm_file`:
a magic line that does not strip to `"P5"` raises `ValueError`; then the
dimension line, the maxval line and the `reshape((height, width))` of the
remaining bytes must all succeed. Any raised error is the `Except.error` case,
caught by the `except:` handler. -/
def parsePGM (f : PGMFile) : Except String (ℕ × ℕ × List ℕ) :=
  if pyStrip (f.lines.head?.getD "") ≠ "P5" then .error "Not a P5 PGM file"
  else
    match parseDims (dropComments (f.lines.drop 1)).1 with
    | none => .error "invalid dimension line"
    | some (w, h) =>
      match (pyStrip ((dropComments (f.lines.drop 1)).2.head?.getD "")).toNat? with
      | none => .error "invalid maxval line"
      | some _ =>
        if f.data.length = h * w then .ok (w, h, f.data)
        else .error "cannot reshape array"

/-- The raster built from the parsed pixel array: a `width` by `height`
grayscale image, row-major. -/
def imageOfArray (w h : ℕ) (data : List ℕ) : Image :=
  fun c =>
    if 0 ≤ c.1 ∧ c.1 < (w : ℤ) ∧ 0 ≤ c.2 ∧ c.2 < (h : ℤ) then
      some (data.getD (c.2.toNat * w + c.1.toNat) 0)
    else none

/-- `ImageViewer.load_image` (lines 749-758): install the parsed image as
the PGM layer's pixmap and reset the drawing layer to a fresh transparent
pixmap. Nothing else (waypoints included) is touched. -/
def load_image (s : ViewerState) (w h : ℕ) (data : List ℕ) : ViewerState :=
  { s with
    pgm_layer := { s.pgm_layer with pixmap := some (imageOfArray w h data) },
    drawing_layer := { s.drawing_layer with pixmap := some transparentImage } }

/-- `MainWindow.load_pgm_file`: on any parse error the exception is caught
and only logged, so the document state is returned unchanged; on success
the image is loaded. -/
def load_pgm_file (s : ViewerState) (f : PGMFile) : ViewerState :=
  match parsePGM f with
  | .error _ => s
  | .ok (w, h, d) => load_image s w h d

/-- A file whose magic line is `"P6"` instead of `"P5"`. -/
def badMagicFile : PGMFile := { lines := ["P6", "2 2", "255"], data := [0, 0, 0, 0] }

/-- `ImageViewer.set_drawing_mode` (lines 668-695). Selecting the mode
that is already active cancels it: mode goes to `NONE`, all tool buttons
are unchecked, the label and scroll area leave drawing mode (the label
resets its cursor to the arrow). Selecting a different mode activates it,
checks the matching button, enables drawing on the label and scroll area
when the mode is not `NONE` (the label picks its tool cursor), and finally
the waypoint tool switches the cursor to the cross. -/
def viewer_set_drawing_mode (s : ViewerState) (mode : DrawingMode) : ViewerState :=
  if s.drawing_mode = mode then
    { s with drawing_mode := .NONE,
             pen_checked := false, eraser_checked := false, waypoint_checked := false,
             display_drawing_enabled := false, display_cursor := .arrow,
             scroll_drawing_enabled := false }
  else
    let s1 := { s with
      drawing_mode := mode,
      pen_checked := decide (mode = .PEN),
      eraser_checked := decide (mode = .ERASER),
      waypoint_checked := decide (mode = .WAYPOINT),
      display_drawing_enabled := decide (mode ≠ .NONE),
      display_cursor := if mode ≠ .NONE then CursorModel.toolCircle else CursorModel.arrow,
      scroll_drawing_enabled := decide (mode ≠ .NONE) }
    if mode ≠ .NONE then
      if mode = .WAYPOINT then { s1 with display_cursor := .cross }
      else { s1 with display_cursor := .toolCircle }
    else s1

/-- One entry of the `waypoints` sequence of an imported YAML file; each
field is `none` when the corresponding key is missing (accessing it then
raises `KeyError`). The value of `angle_degrees` is in degrees. -/
structure WaypointEntry where
  x : Option ℚ
  y : Option ℚ
  angle_degrees : Option ℚ
deriving DecidableEq, Repr

/-- The top level of an imported waypoint YAML file: `waypoints` is `none`
when the key is absent. -/
structure WaypointYaml where
  waypoints : Option (List WaypointEntry)

/-- The body of the per-entry loop of
`ImageViewer.import_waypoints_from_yaml` (lines 1205-1231), parametrised
by `toRad`, the degree-to-radian conversion `np.radians` (kept abstract
because `pi` is irrational; no claim depends on its values). With no
origin point set, the guard at line 1208 fails and the entry is skipped
silently; a missing key raises `KeyError`, caught by `continue`; otherwise
a new waypoint is appended at the pixel position recomputed through
`metric_to_pixel`. -/
def import_entry (toRad : ℚ → ℚ) (s : ViewerState) (e : WaypointEntry) : ViewerState :=
  match s.origin_point with
  | none => s
  | some (ox, oy) =>
    match e.x, e.y, e.angle_degrees with
    | some xm, some ym, some d =>
      let px := metric_to_pixel_x ox xm s.resolution
      let py := metric_to_pixel_y oy ym s.resolution
      let w := update_metric_coordinates (mkWaypoint (s.counter + 1) px py (toRad d)) ox oy s.resolution
      { s with counter := s.counter + 1, waypoints := s.waypoints ++ [w] }
    | _, _, _ => s

/-- `ImageViewer.import_waypoints_from_yaml` (lines 1196-1233): a missing
`waypoints` key returns immediately; otherwise the existing collection is
cleared and the class counter reset (lines 1201-1203) before any entry is
examined, and the entries are then processed in order. -/
def import_waypoints_from_yaml (toRad : ℚ → ℚ) (s : ViewerState) (data : WaypointYaml) :
    ViewerState :=
  match data.waypoints with
  | none => s
  | some entries => entries.foldl (import_entry toRad) { s with waypoints := [], counter := 0 }

/-- Concrete import data: one complete entry. -/
def sampleEntries : List WaypointEntry := [{ x := some 1, y := some 2, angle_degrees := some 90 }]

/-- The origin computation of `ImageViewer.load_yaml_file` (lines
1046-1076): with an `origin` list of at least two entries, read the
resolution (default 0.05), compute `x_pixel = int(-origin[0]/resolution)`
and `y_pixel = int(-origin[1]/resolution)`, and flip the y coordinate to
`height - y_pixel` when a base pixmap is loaded. Without an `origin` key
or with a short list, state is unchanged. -/
def load_yaml_origin (yamlOrigin : Option (List ℚ)) (yamlResolution : Option ℚ)
    (pgmHeight : Option ℤ) (prevOrigin : Option (ℤ × ℤ)) (prevRes : ℚ) :
    Option (ℤ × ℤ) × ℚ :=
  match yamlOrigin with
  | none => (prevOrigin, prevRes)
  | some origin =>
    if 2 ≤ origin.length then
      let r := yamlResolution.getD (1/20)
      let xp := truncQ (-(origin.getD 0 0) / r)
      let yp := truncQ (-(origin.getD 1 0) / r)
      match pgmHeight with
      | some h => (some (xp, h - yp), r)
      | none => (some (xp, yp), r)
    else (prevOrigin, prevRes)

/-- `Waypoint.update_display_name` line 81:
`degrees = int(self.angle * 180 / np.pi)` — the displayed degree value is
the integer truncation of `angle * 180 / pi`; the stored angle itself is
raw radians and is never normalized. -/
noncomputable def displayDegrees (angle : ℝ) : ℤ := truncR (angle * 180 / Real.pi)

theorem truncQ_intCast (n : ℤ) : truncQ (n : ℚ) = n := by
  unfold truncQ
  split
  · exact Int.floor_intCast n
  · exact Int.ceil_intCast n

/-- C1. Round-trip transform: converting a waypoint's pixel position to
metric coordinates via `update_metric_coordinates` and converting the
metric result back with the import formulas `int(origin + m/r)` /
`int(origin - m/r)` recovers the pixel position exactly for every positive
resolution — in particular within the claimed truncation tolerance of one
unit per axis. -/
theorem metric_pixel_roundtrip (w : Waypoint) (ox oy : ℤ) (r : ℚ)
    (hr : 0 < r) :
    metric_to_pixel_x ox (update_metric_coordinates w ox oy r).x r = w.pixel_x ∧
    metric_to_pixel_y oy (update_metric_coordinates w ox oy r).y r = w.pixel_y := by
  have hr' : r ≠ 0 := ne_of_gt hr
  constructor
  · have : (ox : ℚ) + ((w.pixel_x : ℚ) - (ox : ℚ)) * r / r = ((w.pixel_x : ℤ) : ℚ) := by
      field_simp
    rw [metric_to_pixel_x, update_metric_coordinates, this, truncQ_intCast]
  · have : (oy : ℚ) - ((oy : ℚ) - (w.pixel_y : ℚ)) * r / r = ((w.pixel_y : ℤ) : ℚ) := by
      field_simp
    rw [metric_to_pixel_y, update_metric_coordinates, this, truncQ_intCast]

theorem metric_pixel_roundtrip_witness :
    (0 : ℚ) < 1/20 ∧
    metric_to_pixel_x 12 (update_metric_coordinates (mkWaypoint 1 37 53 0) 12 90 (1/20)).x (1/20) = 37 ∧
    metric_to_pixel_y 90 (update_metric_coordinates (mkWaypoint 1 37 53 0) 12 90 (1/20)).y (1/20) = 53 :=
  ⟨by norm_num, metric_pixel_roundtrip (mkWaypoint 1 37 53 0) 12 90 (1/20) (by norm_num)⟩

theorem range'_append_single (s n : ℕ) :
    List.range' s n ++ [s + n] = List.range' s (n + 1) := by
  induction n generalizing s with
  | zero => simp
  | succ n ih =>
    rw [List.range'_succ, List.range'_succ, List.cons_append]
    have := ih (s + 1)
    rw [show s + (n + 1) = (s + 1) + n by omega, this]

theorem renumberFrom_map_number (l : List Waypoint) :
    ∀ k, (renumberFrom k l).map Waypoint.number = List.range' (k + 1) l.length := by
  induction l with
  | nil => intro k; rfl
  | cons w ws ih =>
    intro k
    rw [renumberFrom, List.map_cons, ih (k + 1), List.length_cons, List.range'_succ]

theorem renumberFrom_length (l : List Waypoint) :
    ∀ k, (renumberFrom k l).length = l.length := by
  induction l with
  | nil => intro k; rfl
  | cons w ws ih => intro k; rw [renumberFrom, List.length_cons, ih, List.length_cons]

theorem placedWaypoint_number (s : ViewerState) (x y : ℤ) :
    (placedWaypoint s x y).number = s.counter + 1 := by
  unfold placedWaypoint
  cases s.origin_point with
  | none => rfl
  | some p => obtain ⟨ox, oy⟩ := p; rfl

theorem ensureWaypointLayer_waypoints (s : ViewerState) :
    (ensureWaypointLayer s).waypoints = s.waypoints := by
  unfold ensureWaypointLayer
  cases s.waypoint_layer.pixmap <;> rfl

theorem ensureWaypointLayer_counter (s : ViewerState) :
    (ensureWaypointLayer s).counter = s.counter := by
  unfold ensureWaypointLayer
  cases s.waypoint_layer.pixmap <;> rfl

theorem applyWpOp_inv (s : ViewerState) (op : WpOp) (h : WpInv s) :
    WpInv (applyWpOp s op) := by
  obtain ⟨hmap, hcount⟩ := h
  cases op with
  | add x y =>
    show WpInv (add_waypoint s x y)
    unfold add_waypoint
    cases hp : s.pgm_layer.pixmap with
    | none => exact ⟨hmap, hcount⟩
    | some img =>
      constructor
      · rw [ensureWaypointLayer_waypoints]
        show (s.waypoints ++ [placedWaypoint s x y]).map Waypoint.number = _
        rw [List.map_append, List.map_cons, List.map_nil, hmap, placedWaypoint_number,
          hcount, show s.waypoints.length + 1 = 1 + s.waypoints.length by omega,
          range'_append_single, List.length_append, List.length_cons, List.length_nil]
      · rw [ensureWaypointLayer_waypoints, ensureWaypointLayer_counter]
        show s.counter + 1 = (s.waypoints ++ [placedWaypoint s x y]).length
        rw [List.length_append, List.length_cons, List.length_nil, hcount]
  | remove n =>
    show WpInv (remove_waypoint s n)
    unfold remove_waypoint
    refine ⟨?_, ?_⟩
    · rw [renumberFrom_map_number, renumberFrom_length]
    · show (s.waypoints.filter _).length = _
      rw [renumberFrom_length]
  | reorder src tgt =>
    show WpInv (reorder_waypoints s src tgt)
    unfold reorder_waypoints
    split
    · exact ⟨hmap, hcount⟩
    · cases hf : s.waypoints.find? (fun wp => wp.number == src) with
      | none => exact ⟨hmap, hcount⟩
      | some source_wp =>
        cases ht : s.waypoints.findIdx? (fun wp => wp.number == tgt) with
        | none => exact ⟨hmap, hcount⟩
        | some target_index =>
          refine ⟨?_, ?_⟩
          · rw [renumberFrom_map_number, renumberFrom_length]
          · show (_ : List Waypoint).length = _
            rw [renumberFrom_length]

theorem applyWpOps_inv (ops : List WpOp) :
    ∀ s : ViewerState, WpInv s → WpInv (ops.foldl applyWpOp s) := by
  induction ops with
  | nil => intro s h; exact h
  | cons op ops ih => intro s h; exact ih _ (applyWpOp_inv s op h)

/-- C2. Renumbering density invariant: applied to a state whose waypoint
collection is empty (with the class counter at 0), any sequence of
add/remove/reorder operations leaves the waypoint numbers, read in list
order, exactly 1..N for the current count N — so the multiset of numbers
is {1, ..., N}, without gaps or duplicates. -/
theorem waypoint_numbers_dense (ops : List WpOp) (s : ViewerState)
    (hw : s.waypoints = []) (hc : s.counter = 0) :
    ((ops.foldl applyWpOp s).waypoints.map Waypoint.number) =
      List.range' 1 (ops.foldl applyWpOp s).waypoints.length := by
  have h0 : WpInv s := by
    constructor
    · rw [hw]; rfl
    · rw [hw, hc]; rfl
  exact (applyWpOps_inv ops s h0).1

theorem waypoint_numbers_dense_witness :
    sampleLoadedState.waypoints = [] ∧ sampleLoadedState.counter = 0 ∧
    ((sampleOps.foldl applyWpOp sampleLoadedState).waypoints.map Waypoint.number) =
      List.range' 1 (sampleOps.foldl applyWpOp sampleLoadedState).waypoints.length :=
  ⟨rfl, rfl, waypoint_numbers_dense sampleOps sampleLoadedState rfl rfl⟩

/-- C3. Reorder example: from four waypoints numbered 1-4 (placed at four
distinct pixel positions), `reorder_waypoints 4 2` produces the payload
order `[w1, w4, w2, w3]` — identified by the original pixel positions —
renumbered to 1..4, so the originally fourth waypoint is now number 2. -/
theorem reorder_example :
    (reorder_waypoints
      (add_waypoint (add_waypoint (add_waypoint (add_waypoint
        sampleLoadedState 10 11) 20 21) 30 31) 40 41) 4 2).waypoints.map
        (fun w => (w.number, w.pixel_x, w.pixel_y)) =
      [(1, 10, 11), (2, 40, 41), (3, 20, 21), (4, 30, 31)] := by
  decide

/-- C5. Compositing order invariant: with all five layers visible and
fully opaque (and a source-over blend, which at opacity 1 returns the
source pixel), the rendered pixel at any coordinate is the origin layer's
where the origin marker paints; otherwise the waypoint markers' where they
paint; otherwise (path not painting there) the drawing layer's where it
paints; otherwise the base map's — i.e. the passes resolve bottom-to-top
in the order base map, drawing, path, waypoints, origin. -/
theorem compositing_order_invariant
    (blend : ℚ → ℕ → ℕ → ℕ) (wpImg : List Waypoint → Image) (gridImg : Image)
    (s : ViewerState) (bimg dimg pimg oimg : Image) (c : ℤ × ℤ)
    (hblend : ∀ v d, blend 1 v d = v)
    (hbp : s.pgm_layer.pixmap = some bimg) (hbv : s.pgm_layer.visible = true)
    (hbo : s.pgm_layer.opacity = 1)
    (hdp : s.drawing_layer.pixmap = some dimg) (hdv : s.drawing_layer.visible = true)
    (hdo : s.drawing_layer.opacity = 1)
    (hpp : s.path_layer.pixmap = some pimg) (hpv : s.path_layer.visible = true)
    (hpo : s.path_layer.opacity = 1)
    (hwv : s.waypoint_layer.visible = true) (hwo : s.waypoint_layer.opacity = 1)
    (hwne : s.waypoints.isEmpty = false)
    (hop : s.origin_layer.pixmap = some oimg) (hov : s.origin_layer.visible = true)
    (hoo : s.origin_layer.opacity = 1)
    (hgrid : s.show_grid = false) :
    ∃ res, update_display blend wpImg gridImg s = some res ∧
      (∀ v, oimg c = some v → res c = v) ∧
      (oimg c = none → ∀ v, wpImg s.waypoints c = some v → res c = v) ∧
      (oimg c = none → wpImg s.waypoints c = none → pimg c = none →
        ∀ v, dimg c = some v → res c = v) ∧
      (oimg c = none → wpImg s.waypoints c = none → pimg c = none → dimg c = none →
        ∀ v, bimg c = some v → res c = v) := by
  unfold update_display
  rw [hbp]
  refine ⟨_, rfl, ?_, ?_, ?_, ?_⟩ <;>
    simp only [passOrder, List.foldl_cons, List.foldl_nil, applyPass, layerPass,
      hbp, hbv, hbo, hdp, hdv, hdo, hpp, hpv, hpo, hwv, hwo, hwne, hop, hov, hoo, hgrid,
      Bool.not_false, Bool.and_self, if_true, if_false, Bool.false_eq_true, ite_false, ite_true,
      Bool.true_and, Bool.and_true, paintWith]
  · intro v hv
    simp only [hv, hblend]
  · intro ho v hv
    simp only [ho, hv, hblend]
  · intro ho hw hp v hv
    simp only [ho, hw, hp, hv, hblend]
  · intro ho hw hp hd v hv
    simp only [ho, hw, hp, hd, hv, hblend]

theorem compositing_order_invariant_witness :
    ∃ res, update_display sampleBlend sampleWpImg sampleGridImg sampleFullState = some res ∧
      (∀ v, sampleOriginImg (0, 0) = some v → res (0, 0) = v) ∧
      (sampleOriginImg (0, 0) = none →
        ∀ v, sampleWpImg sampleFullState.waypoints (0, 0) = some v → res (0, 0) = v) ∧
      (sampleOriginImg (0, 0) = none → sampleWpImg sampleFullState.waypoints (0, 0) = none →
        samplePathImg (0, 0) = none → ∀ v, sampleDrawImg (0, 0) = some v → res (0, 0) = v) ∧
      (sampleOriginImg (0, 0) = none → sampleWpImg sampleFullState.waypoints (0, 0) = none →
        samplePathImg (0, 0) = none → sampleDrawImg (0, 0) = none →
        ∀ v, sampleBaseImg (0, 0) = some v → res (0, 0) = v) :=
  compositing_order_invariant sampleBlend sampleWpImg sampleGridImg sampleFullState
    sampleBaseImg sampleDrawImg samplePathImg sampleOriginImg (0, 0)
    (fun v d => by simp [sampleBlend]) rfl rfl rfl rfl rfl rfl rfl rfl rfl rfl rfl
    rfl rfl rfl rfl rfl

theorem layerPass_id (blend : ℚ → ℕ → ℕ → ℕ) (l : LayerModel)
    (h : l.visible = false ∨ l.pixmap = none) (dst : Canvas) :
    layerPass blend l dst = dst := by
  unfold layerPass
  rcases h with h | h
  · simp [h]
  · rw [h]; cases l.visible <;> simp

theorem update_display_skip (blend : ℚ → ℕ → ℕ → ℕ) (wpImg : List Waypoint → Image)
    (gridImg : Image) (s : ViewerState) (skip : PassId)
    (hid : ∀ dst, applyPass blend wpImg gridImg s skip dst = dst) :
    update_display blend wpImg gridImg s = update_display_without skip blend wpImg gridImg s := by
  unfold update_display update_display_without
  cases hp : s.pgm_layer.pixmap with
  | none => rfl
  | some img =>
    cases skip with
    | base =>
      rw [show passOrder.filter (fun p => p ≠ PassId.base) =
        [.grid, .drawing, .path, .waypoints, .origin] from by decide]
      simp only [passOrder, List.foldl_cons, List.foldl_nil]
      rw [hid]
    | grid =>
      rw [show passOrder.filter (fun p => p ≠ PassId.grid) =
        [.base, .drawing, .path, .waypoints, .origin] from by decide]
      simp only [passOrder, List.foldl_cons, List.foldl_nil]
      rw [hid]
    | drawing =>
      rw [show passOrder.filter (fun p => p ≠ PassId.drawing) =
        [.base, .grid, .path, .waypoints, .origin] from by decide]
      simp only [passOrder, List.foldl_cons, List.foldl_nil]
      rw [hid]
    | path =>
      rw [show passOrder.filter (fun p => p ≠ PassId.path) =
        [.base, .grid, .drawing, .waypoints, .origin] from by decide]
      simp only [passOrder, List.foldl_cons, List.foldl_nil]
      rw [hid]
    | waypoints =>
      rw [show passOrder.filter (fun p => p ≠ PassId.waypoints) =
        [.base, .grid, .drawing, .path, .origin] from by decide]
      simp only [passOrder, List.foldl_cons, List.foldl_nil]
      rw [hid]
    | origin =>
      rw [show passOrder.filter (fun p => p ≠ PassId.origin) =
        [.base, .grid, .drawing, .path, .waypoints] from by decide]
      simp only [passOrder, List.foldl_cons, List.foldl_nil]
      rw [hid]

/-- C6 amended. An invisible layer contributes nothing, and a null raster
also prevents any contribution for the four raster-painted layers (base
map, drawing, path, origin marker); the waypoint-marker layer, however, is
procedurally drawn each render, so it contributes nothing exactly when it
is invisible or there are no waypoints — its raster being null does not
silence it (see `waypoint_layer_null_raster_still_contributes`). -/
theorem layer_contribution_amended (blend : ℚ → ℕ → ℕ → ℕ)
    (wpImg : List Waypoint → Image) (gridImg : Image) (s : ViewerState) :
    ((s.pgm_layer.visible = false ∨ s.pgm_layer.pixmap = none) →
      update_display blend wpImg gridImg s =
        update_display_without .base blend wpImg gridImg s) ∧
    ((s.drawing_layer.visible = false ∨ s.drawing_layer.pixmap = none) →
      update_display blend wpImg gridImg s =
        update_display_without .drawing blend wpImg gridImg s) ∧
    ((s.path_layer.visible = false ∨ s.path_layer.pixmap = none) →
      update_display blend wpImg gridImg s =
        update_display_without .path blend wpImg gridImg s) ∧
    ((s.origin_layer.visible = false ∨ s.origin_layer.pixmap = none) →
      update_display blend wpImg gridImg s =
        update_display_without .origin blend wpImg gridImg s) ∧
    ((s.waypoint_layer.visible = false ∨ s.waypoints = []) →
      update_display blend wpImg gridImg s =
        update_display_without .waypoints blend wpImg gridImg s) := by
  refine ⟨?_, ?_, ?_, ?_, ?_⟩
  · intro h
    exact update_display_skip blend wpImg gridImg s .base
      (fun dst => layerPass_id blend s.pgm_layer h dst)
  · intro h
    exact update_display_skip blend wpImg gridImg s .drawing
      (fun dst => layerPass_id blend s.drawing_layer h dst)
  · intro h
    exact update_display_skip blend wpImg gridImg s .path
      (fun dst => layerPass_id blend s.path_layer h dst)
  · intro h
    exact update_display_skip blend wpImg gridImg s .origin
      (fun dst => layerPass_id blend s.origin_layer h dst)
  · intro h
    refine update_display_skip blend wpImg gridImg s .waypoints (fun dst => ?_)
    show (if !s.waypoints.isEmpty && s.waypoint_layer.visible then
      paintWith blend s.waypoint_layer.opacity (wpImg s.waypoints) dst else dst) = dst
    rcases h with h | h
    · simp [h]
    · simp [h]

theorem layer_contribution_amended_witness :
    (update_display sampleBlend sampleWpImg sampleGridImg initialState =
      update_display_without .base sampleBlend sampleWpImg sampleGridImg initialState) ∧
    (update_display sampleBlend sampleWpImg sampleGridImg initialState =
      update_display_without .drawing sampleBlend sampleWpImg sampleGridImg initialState) ∧
    (update_display sampleBlend sampleWpImg sampleGridImg initialState =
      update_display_without .path sampleBlend sampleWpImg sampleGridImg initialState) ∧
    (update_display sampleBlend sampleWpImg sampleGridImg initialState =
      update_display_without .origin sampleBlend sampleWpImg sampleGridImg initialState) ∧
    (update_display sampleBlend sampleWpImg sampleGridImg initialState =
      update_display_without .waypoints sampleBlend sampleWpImg sampleGridImg initialState) := by
  obtain ⟨h1, h2, h3, h4, h5⟩ :=
    layer_contribution_amended sampleBlend sampleWpImg sampleGridImg initialState
  exact ⟨h1 (Or.inr rfl), h2 (Or.inr rfl), h3 (Or.inr rfl), h4 (Or.inr rfl), h5 (Or.inr rfl)⟩

/-- C6 counterexample: the waypoint-marker layer of `nullRasterWpState`
has a null raster, yet rendering differs from rendering without the
waypoint pass (at coordinate (0, 0) the markers paint 7 over the base
map's 205), refuting the claim that a raster-less layer contributes
nothing as stated for the waypoint-marker layer. -/
theorem waypoint_layer_null_raster_still_contributes :
    nullRasterWpState.waypoint_layer.pixmap = none ∧
    nullRasterWpState.waypoint_layer.visible = true ∧
    update_display sampleBlend sampleWpImg sampleGridImg nullRasterWpState ≠
      update_display_without .waypoints sampleBlend sampleWpImg sampleGridImg nullRasterWpState := by
  refine ⟨rfl, rfl, ?_⟩
  intro h
  have h1 : ((update_display sampleBlend sampleWpImg sampleGridImg nullRasterWpState).getD
      (fun _ => 0)) ((0 : ℤ), (0 : ℤ)) =
      ((update_display_without .waypoints sampleBlend sampleWpImg sampleGridImg
        nullRasterWpState).getD (fun _ => 0)) ((0 : ℤ), (0 : ℤ)) := by rw [h]
  have hL : ((update_display sampleBlend sampleWpImg sampleGridImg nullRasterWpState).getD
      (fun _ => 0)) ((0 : ℤ), (0 : ℤ)) = 7 := by decide
  have hR : ((update_display_without .waypoints sampleBlend sampleWpImg sampleGridImg
      nullRasterWpState).getD (fun _ => 0)) ((0 : ℤ), (0 : ℤ)) = 205 := by decide
  rw [hL, hR] at h1
  exact absurd h1 (by decide)

/-- C7. Malformed map file is rejected atomically: whenever the first line
of the file does not strip to the magic value `"P5"`, the parse raises an
error (reported by the handler) and the whole document state — in
particular the base-map raster, the drawing raster and the waypoint
collection — is left unchanged. -/
theorem bad_magic_rejected_atomically (s : ViewerState) (f : PGMFile)
    (hmagic : pyStrip (f.lines.head?.getD "") ≠ "P5") :
    (∃ e, parsePGM f = .error e) ∧ load_pgm_file s f = s := by
  have hp : parsePGM f = .error "Not a P5 PGM file" := by
    unfold parsePGM
    rw [if_pos hmagic]
  refine ⟨⟨_, hp⟩, ?_⟩
  unfold load_pgm_file
  rw [hp]

theorem bad_magic_rejected_atomically_witness :
    pyStrip (badMagicFile.lines.head?.getD "") ≠ "P5" ∧
    ((∃ e, parsePGM badMagicFile = .error e) ∧
      load_pgm_file sampleLoadedState badMagicFile = sampleLoadedState) :=
  ⟨by decide, bad_magic_rejected_atomically sampleLoadedState badMagicFile (by decide)⟩

/-- C8. Toggle-off drawing mode: from any state in which tool `mode` is
not already active, selecting `mode` twice leaves the document idle (mode
`NONE`, drawing disabled on both the label and the scroll area, all
buttons unchecked), and the resulting state is identical to selecting
`mode` and then explicitly selecting no tool (`NONE`). -/
theorem toggle_off_drawing_mode (s : ViewerState) (mode : DrawingMode)
    (hm : mode ≠ .NONE) (hcur : s.drawing_mode ≠ mode) :
    viewer_set_drawing_mode (viewer_set_drawing_mode s mode) mode =
      viewer_set_drawing_mode (viewer_set_drawing_mode s mode) .NONE ∧
    (viewer_set_drawing_mode (viewer_set_drawing_mode s mode) mode).drawing_mode = .NONE ∧
    (viewer_set_drawing_mode (viewer_set_drawing_mode s mode) mode).display_drawing_enabled = false ∧
    (viewer_set_drawing_mode (viewer_set_drawing_mode s mode) mode).scroll_drawing_enabled = false ∧
    (viewer_set_drawing_mode (viewer_set_drawing_mode s mode) mode).pen_checked = false ∧
    (viewer_set_drawing_mode (viewer_set_drawing_mode s mode) mode).eraser_checked = false ∧
    (viewer_set_drawing_mode (viewer_set_drawing_mode s mode) mode).waypoint_checked = false := by
  have h1 : viewer_set_drawing_mode s mode =
      (if mode = .WAYPOINT then
        { s with
          drawing_mode := mode,
          pen_checked := decide (mode = .PEN),
          eraser_checked := decide (mode = .ERASER),
          waypoint_checked := decide (mode = .WAYPOINT),
          display_drawing_enabled := decide (mode ≠ .NONE),
          display_cursor := .cross,
          scroll_drawing_enabled := decide (mode ≠ .NONE) }
      else
        { s with
          drawing_mode := mode,
          pen_checked := decide (mode = .PEN),
          eraser_checked := decide (mode = .ERASER),
          waypoint_checked := decide (mode = .WAYPOINT),
          display_drawing_enabled := decide (mode ≠ .NONE),
          display_cursor := .toolCircle,
          scroll_drawing_enabled := decide (mode ≠ .NONE) }) := by
    unfold viewer_set_drawing_mode
    rw [if_neg hcur, if_pos hm]
  rw [h1]
  cases mode with
  | NONE => exact absurd rfl hm
  | PEN => exact ⟨rfl, rfl, rfl, rfl, rfl, rfl, rfl⟩
  | ERASER => exact ⟨rfl, rfl, rfl, rfl, rfl, rfl, rfl⟩
  | WAYPOINT => exact ⟨rfl, rfl, rfl, rfl, rfl, rfl, rfl⟩

theorem toggle_off_drawing_mode_witness :
    viewer_set_drawing_mode (viewer_set_drawing_mode initialState .PEN) .PEN =
      viewer_set_drawing_mode (viewer_set_drawing_mode initialState .PEN) .NONE ∧
    (viewer_set_drawing_mode (viewer_set_drawing_mode initialState .PEN) .PEN).drawing_mode = .NONE ∧
    (viewer_set_drawing_mode (viewer_set_drawing_mode initialState .PEN) .PEN).display_drawing_enabled = false ∧
    (viewer_set_drawing_mode (viewer_set_drawing_mode initialState .PEN) .PEN).scroll_drawing_enabled = false ∧
    (viewer_set_drawing_mode (viewer_set_drawing_mode initialState .PEN) .PEN).pen_checked = false ∧
    (viewer_set_drawing_mode (viewer_set_drawing_mode initialState .PEN) .PEN).eraser_checked = false ∧
    (viewer_set_drawing_mode (viewer_set_drawing_mode initialState .PEN) .PEN).waypoint_checked = false :=
  toggle_off_drawing_mode initialState .PEN (by decide) (by decide)

theorem import_entry_no_origin (toRad : ℚ → ℚ) (s : ViewerState) (e : WaypointEntry)
    (ho : s.origin_point = none) : import_entry toRad s e = s := by
  unfold import_entry
  rw [ho]

theorem import_fold_no_origin (toRad : ℚ → ℚ) (entries : List WaypointEntry) :
    ∀ s : ViewerState, s.origin_point = none →
      entries.foldl (import_entry toRad) s = s := by
  induction entries with
  | nil => intro s _; rfl
  | cons e es ih =>
    intro s ho
    show es.foldl (import_entry toRad) (import_entry toRad s e) = s
    rw [import_entry_no_origin toRad s e ho, ih s ho]

/-- C10. Destructive import: whenever the YAML data carries a `waypoints`
key, the import first clears the collection and resets the counter, so the
result never depends on the waypoints previously held; and when no origin
point is set, every entry is skipped silently, leaving the document with
zero waypoints (and counter 0) — the previously existing waypoints are
lost. -/
theorem import_destructive_without_origin (toRad : ℚ → ℚ) (s : ViewerState)
    (entries : List WaypointEntry) (ho : s.origin_point = none) :
    import_waypoints_from_yaml toRad s ⟨some entries⟩ =
      import_waypoints_from_yaml toRad { s with waypoints := [], counter := 0 } ⟨some entries⟩ ∧
    (import_waypoints_from_yaml toRad s ⟨some entries⟩).waypoints = [] ∧
    (import_waypoints_from_yaml toRad s ⟨some entries⟩).counter = 0 := by
  have hclear : import_waypoints_from_yaml toRad s ⟨some entries⟩ =
      { s with waypoints := [], counter := 0 } := by
    show entries.foldl (import_entry toRad) { s with waypoints := [], counter := 0 } = _
    exact import_fold_no_origin toRad entries _ ho
  refine ⟨rfl, ?_, ?_⟩ <;> rw [hclear]

theorem import_destructive_without_origin_witness :
    nullRasterWpState.origin_point = none ∧
    nullRasterWpState.waypoints ≠ [] ∧
    ((import_waypoints_from_yaml id nullRasterWpState ⟨some sampleEntries⟩ =
        import_waypoints_from_yaml id
          { nullRasterWpState with waypoints := [], counter := 0 } ⟨some sampleEntries⟩) ∧
      (import_waypoints_from_yaml id nullRasterWpState ⟨some sampleEntries⟩).waypoints = [] ∧
      (import_waypoints_from_yaml id nullRasterWpState ⟨some sampleEntries⟩).counter = 0) :=
  ⟨rfl, by decide,
    import_destructive_without_origin id nullRasterWpState sampleEntries rfl⟩

/-- C4. Origin-pixel formula: loading a YAML sidecar with origin
`[ox, oy]` (meters), resolution `r` and a loaded image of height `h`
computes the origin pixel as `(int(-ox/r), h - int(-oy/r))`; in particular
origin `[-1.0, -2.0]`, resolution 0.05 and height 100 give pixel
`(20, 60)` (with `y_raw = 40` flipped to `100 - 40`). -/
theorem origin_pixel_formula (ox oy r : ℚ) (h : ℤ) (prevO : Option (ℤ × ℤ)) (prevR : ℚ) :
    load_yaml_origin (some [ox, oy]) (some r) (some h) prevO prevR =
      (some (truncQ (-ox / r), h - truncQ (-oy / r)), r) ∧
    load_yaml_origin (some [-1, -2]) (some (1/20)) (some 100) prevO prevR =
      (some (20, 60), 1/20) := by
  constructor
  · rfl
  · show (some (truncQ (-(-1 : ℚ) / (1/20)), (100 : ℤ) - truncQ (-(-2 : ℚ) / (1/20))), (1/20 : ℚ)) = _
    norm_num [truncQ]

/-- C9. Angle-to-degrees display truncation: an angle of `pi/2` radians
displays as 90 degrees, and an angle of `-pi/4` radians displays as -45
degrees, the displayed value being the truncation toward zero of
`angle * 180 / pi`. -/
theorem angle_display_examples :
    displayDegrees (Real.pi / 2) = 90 ∧ displayDegrees (-(Real.pi / 4)) = -45 := by
  have hpi : Real.pi ≠ 0 := Real.pi_ne_zero
  constructor
  · have h : Real.pi / 2 * 180 / Real.pi = 90 := by
      field_simp
      ring
    rw [displayDegrees, h, truncR, if_pos (by norm_num)]
    rw [show ((90 : ℝ)) = (((90 : ℤ) : ℝ)) by norm_num, Int.floor_intCast]
  · have h : -(Real.pi / 4) * 180 / Real.pi = -45 := by
      field_simp
      ring
    rw [displayDegrees, h, truncR, if_neg (by norm_num)]
    rw [show ((-45 : ℝ)) = (((-45 : ℤ) : ℝ)) by norm_num, Int.ceil_intCast]
